import Mathlib

/-!
Verification development for the infra-support-copilot chat backend.

The definitions below are a shallow embedding, translated from the Python
sources:
  * `app/services/sql_query_service.py` (safety gate, shared verbatim with
    `app/services/sql_query_auto_service.py`),
  * `app/services/rag_chat_service.py` (index selection),
  * `app/services/decide_tool.py` (retry policy and orchestration),
  * `app/main.py` with `app/models/chat_models.py` (request boundary).

External effects (model calls, search, SQL execution, log queries) are
modelled as oracle fields of an environment record; Python exceptions are
modelled with `Except` over an explicit exception type; Python string
primitives are re-implemented structurally on `List Char` so that concrete
inputs evaluate by definitional reduction.
-/

/-- Python exceptions that the orchestration code can raise or catch. -/
inductive PyExc where
  | rateLimitError (msg : String)
  | indexError
  | attributeError (msg : String)
  | httpException (status : Nat) (detail : String)
  | runtimeError (msg : String)
  | other (msg : String)
deriving DecidableEq, Repr

/-! ### Python string primitives, modelled structurally -/

/-- Python `sub in s` (substring containment, over code points). -/
def pyContains (s sub : String) : Bool :=
  (List.range (s.data.length + 1)).any fun i => sub.data.isPrefixOf (s.data.drop i)

/-- Python `s.startswith(pre)`. -/
def pyStartsWith (s pre : String) : Bool :=
  pre.data.isPrefixOf s.data

/-- Python `s.lower()` (ASCII-relevant part). -/
def pyLower (s : String) : String := ⟨s.data.map Char.toLower⟩

/-- Python `s[:n]` (take the first `n` code points). -/
def pyTake (s : String) (n : Nat) : String := ⟨s.data.take n⟩

/-- Python `sep.join(xs)`. -/
def pyJoin (sep : String) : List String → String
  | [] => ""
  | [x] => x
  | x :: y :: xs => x ++ sep ++ pyJoin sep (y :: xs)

/-- Fuel-driven worker for Python `s.split(sep)` with a non-empty separator:
left-to-right, non-overlapping occurrences. Each step consumes at least one
character, so fuel `cs.length + 1` never runs out. -/
def pySplitFuel (sep : List Char) : Nat → List Char → List Char → List (List Char)
  | 0, cs, acc => [acc.reverse ++ cs]
  | fuel + 1, cs, acc =>
    match cs with
    | [] => [acc.reverse]
    | c :: rest =>
      if sep.isPrefixOf (c :: rest) then
        acc.reverse :: pySplitFuel sep fuel ((c :: rest).drop sep.length) []
      else
        pySplitFuel sep fuel rest (c :: acc)

/-- Python `s.split(sep)` for a non-empty separator (the only use in the
source; Python rejects an empty separator, modelled as the identity split). -/
def pySplit (s sep : String) : List String :=
  if sep.data.isEmpty then [s]
  else (pySplitFuel sep.data (s.data.length + 1) s.data []).map fun l => (⟨l⟩ : String)

/-- Worker for Python `s.split()` (split on whitespace runs, dropping
empty pieces). -/
def pyWordsAux : List Char → List Char → List (List Char)
  | [], acc => if acc.isEmpty then [] else [acc.reverse]
  | c :: rest, acc =>
    if c.isWhitespace then
      if acc.isEmpty then pyWordsAux rest [] else acc.reverse :: pyWordsAux rest []
    else
      pyWordsAux rest (c :: acc)

/-- Python `s.split()` with no arguments. -/
def pyWords (s : String) : List String :=
  (pyWordsAux s.data []).map fun l => (⟨l⟩ : String)

/-! ### SQL safety gate (`SQLQueryService._is_safe_sql`)

The function is textually identical in `sql_query_service.py` (lines
190-206) and `sql_query_auto_service.py` (lines 166-182); one embedding
covers both. -/

/-- The `forbidden` keyword list of `_is_safe_sql`. -/
def forbiddenKeywords : List String :=
  ["update", "delete", "insert", "merge", "drop", "alter", "truncate"]

/-- `self._allowed_tables` of `SQLQueryService`. -/
def allowedTables : List String :=
  ["virtual_machines", "network_interfaces", "installed_software"]

/-- Python `w.strip('[];,')`: remove those characters from both ends. -/
def stripPunct (cs : List Char) : List Char :=
  let bad : List Char := ['[', ']', ';', ',']
  ((cs.dropWhile (bad.contains ·)).reverse.dropWhile (bad.contains ·)).reverse

/-- The identifier the gate extracts from one post-separator segment:
`seg.strip().split()[0].strip('[];,')`, then the `dbo.` qualifier is
dropped. `none` models the `IndexError` Python raises when the segment has
no word at all. -/
def identOfSeg (seg : String) : Option String :=
  match pyWords seg with
  | [] => none
  | w :: _ =>
    let i := stripPunct w.data
    let i := if ("dbo.".data).isPrefixOf i then i.drop 4 else i
    some ⟨i⟩

/-- The gate's inner loops over `parts[1:]`: return `false` at the first
identifier that is non-empty and not allow-listed, `none` at the first
segment whose extraction raises. -/
def checkSegs : List String → Option Bool
  | [] => some true
  | seg :: rest =>
    match identOfSeg seg with
    | none => none
    | some ident =>
      if (ident != "") && !(allowedTables.contains ident) then some false
      else checkSegs rest

/-- The segments the gate examines: everything after each occurrence of the
space-delimited separators, first all of the `" from "` pieces, then all of
the `" join "` pieces, as the source's two-token loop does. -/
def tableSegs (lowered : String) : List String :=
  (pySplit lowered " from ").tail ++ (pySplit lowered " join ").tail

/-- `SQLQueryService._is_safe_sql`: `some b` is Python returning `b`,
`none` is the uncaught `IndexError` on a wordless segment. -/
def is_safe_sql (sql : String) : Option Bool :=
  let lowered := pyLower sql
  if forbiddenKeywords.any (fun f => pyContains lowered f) then some false
  else checkSegs (tableSegs lowered)

/-- Modelled from the spec claim's wording, for comparison with the code's
gate: flags an SQL string in which some whitespace-delimited identifier
immediately following a `from` or `join` token, optionally `dbo.`-qualified,
is not in the allow-list. -/
def specBadTableRef (sql : String) : Bool :=
  let toks := pyWords (pyLower sql)
  (toks.zip toks.tail).any fun p =>
    ((p.1 == "from") || (p.1 == "join")) &&
      !(allowedTables.contains
          (if pyStartsWith p.2 "dbo." then (⟨p.2.data.drop 4⟩ : String) else p.2))

/-- A segment passes the gate's per-segment test (used to state the amended
table-reference claim): its extracted identifier is empty or allow-listed. -/
def segOk (seg : String) : Bool :=
  match identOfSeg seg with
  | none => true
  | some ident => (ident == "") || allowedTables.contains ident

/-! ### Index selection (`RagChatService._select_indexes`)

The model call and `json.loads` of its stripped content are collapsed into
one oracle value: `.error` covers both a raising call and unparsable
content, `.ok v` is the parsed JSON value. -/

/-- Parsed JSON values as produced by `json.loads`. -/
inductive JsonVal where
  | jnull
  | jbool (b : Bool)
  | jnum (n : Int)
  | jstr (s : String)
  | jarr (xs : List JsonVal)
  | jobj (fields : List (String × JsonVal))

/-- Python `bool(v)` truthiness on a JSON value. -/
def pyTruthy : JsonVal → Bool
  | .jnull => false
  | .jbool b => b
  | .jnum n => n != 0
  | .jstr s => s != ""
  | .jarr xs => !xs.isEmpty
  | .jobj fields => !fields.isEmpty

/-- Python `dict.get` on a parsed JSON object (fields assumed with distinct
keys, as `json.loads` yields). -/
def dictGet (fields : List (String × JsonVal)) (k : String) : Option JsonVal :=
  (fields.find? fun p => p.1 == k).map fun p => p.2

/-- `RagChatService._select_indexes`: the pair
`(search_inventories, search_incidents)`. A raising call, unparsable
content, or a non-object value (whose `.get` raises) all land in the
`except` branch returning `(True, True)`; on a parsed object each flag is
`bool(selection.get(field, False))`. -/
def selectIndexes (sel : Except PyExc JsonVal) : Bool × Bool :=
  match sel with
  | .error _ => (true, true)
  | .ok (.jobj fields) =>
    (pyTruthy ((dictGet fields "inventories").getD (.jbool false)),
     pyTruthy ((dictGet fields "incidents").getD (.jbool false)))
  | .ok _ => (true, true)

/-! ### Retry policy (`DecideTool._retry_openai_call`)

`base_delay = 1.5` seconds is represented exactly as 15 tenths of a second;
the second component of the result lists the delays slept, in tenths. -/

/-- Outcome of one attempt of the wrapped call. -/
inductive CallOutcome (α : Type) where
  | ok (a : α)
  | rateLimit (msg : String)
  | fail (e : PyExc)

/-- `base_delay * (2 ** attempt)`, in tenths of a second. -/
def retryDelayTenths (attempt : Nat) : Nat := 15 * 2 ^ attempt

/-- The `for attempt in range(max_retries)` loop of `_retry_openai_call`,
indexed by the current attempt and the remaining iterations. A
`RateLimitError` on the last attempt re-raises; any other exception
re-raises immediately; the exhausted-range case (unreachable for the
default `max_retries = 3`) is marked with a placeholder error. -/
def retryFrom {α : Type} (func : Nat → CallOutcome α) (attempt : Nat) :
    Nat → Except PyExc α × List Nat
  | 0 => (.error (.other "retry loop exhausted"), [])
  | remaining + 1 =>
    match func attempt with
    | .ok a => (.ok a, [])
    | .fail e => (.error e, [])
    | .rateLimit m =>
      if remaining = 0 then (.error (.rateLimitError m), [])
      else
        let p := retryFrom func (attempt + 1) remaining
        (p.1, retryDelayTenths attempt :: p.2)

/-- `DecideTool._retry_openai_call(func, max_retries)`: result plus the
list of backoff delays slept (in tenths of a second). -/
def retryOpenaiCall {α : Type} (func : Nat → CallOutcome α) (maxRetries : Nat) :
    Except PyExc α × List Nat :=
  retryFrom func 0 maxRetries

/-! ### Orchestration (`DecideTool.get_chat_completion`) and the
HTTP boundary (`main.chat_completion`) -/

/-- `ChatMessage` of `app/models/chat_models.py`. -/
structure ChatMessage where
  role : String
  content : String
deriving DecidableEq, Repr

/-- `ChatRequest` of `app/models/chat_models.py`: the pydantic model
declares only `messages` (no `conversation_id` field). -/
structure ChatRequest where
  messages : List ChatMessage
deriving DecidableEq, Repr

/-- An evidence item: the `{"title": ..., "content": ...}` dicts the three
services return. -/
structure Source where
  title : String
  content : String
deriving DecidableEq, Repr

/-- A `{"title": ..., "content": ...}` citation dict of the response. -/
structure Citation where
  title : String
  content : String
deriving DecidableEq, Repr

/-- The single message of the returned `choices` entry. `context`, when
present, is its `citations` list; `metadata`, when present, is its
`conversation_id` value. -/
structure RespMessage where
  role : String
  content : String
  context : Option (List Citation)
  metadata : Option String
deriving DecidableEq, Repr

/-- The JSON-serializable response dict `{"choices": [...]}`. -/
structure Response where
  choices : List RespMessage
deriving DecidableEq, Repr

/-- One entry of the selection model's `tool_calls`. `args` models
`json.loads(tc.function.arguments or "{}")` followed by the lookup of
`"query"`: `.error` is a raising parse, `.ok (some q)` a present query
argument, `.ok none` an absent one. -/
structure ToolCall where
  name : String
  args : Except PyExc (Option String)

/-- Record of one adapter invocation (which service was called, with which
query), used to observe which adapters a request actually invoked. -/
inductive AdapterInv where
  | sql (q : String)
  | rag (q : String)
  | logA (q : String)
deriving DecidableEq, Repr

/-- The tool name of the relational adapter in the `tools` schema. -/
def sqlToolName : String := "sql_query_service.get_chat_completion"

/-- The tool name of the document-search adapter in the `tools` schema. -/
def ragToolName : String := "rag_chat_service.get_chat_completion"

/-- The tool name of the log-analytics adapter in the `tools` schema. -/
def logToolName : String := "log_analytics_service.get_chat_completion"

/-- Oracle environment for `DecideTool.get_chat_completion`: the three
adapter services, the net result of the (retried) tool-selection call's
`tool_calls` (an absent or empty list is `[]`), the net extracted
`base_content` of the two final-answer calls, the configured system-prompt
template applied to `(query, sources)`, and the fresh
`str(uuid.uuid4())`. -/
structure Env where
  sqlService : String → Except PyExc (List Source)
  ragService : String → Except PyExc (List Source)
  logService : String → Except PyExc (List Source)
  toolSelect : Except PyExc (List ToolCall)
  finalLLM : String → Except PyExc String
  executeLLM : String → Except PyExc String
  mkPrompt : String → String → String
  newCid : String

/-- `DecideTool._truncate_text`. -/
def truncateText (text : String) (maxChars : Nat) : String :=
  if text = "" then text
  else if text.length ≤ maxChars then text
  else pyTake text maxChars ++ "\n\n... (truncated)"

/-- The `"".join(f"[doc{idx+1}]" ...)` reference markers for `k` items. -/
def docRefs (k : Nat) : String :=
  pyJoin "" ((List.range k).map fun i => "[doc" ++ Nat.repr (i + 1) ++ "]")

/-- The `"\n\n".join(f"{src['title']}:\n{src['content']}" ...)` block. -/
def joinSources (parts : List Source) : String :=
  pyJoin "\n\n" (parts.map fun s => s.title ++ ":\n" ++ s.content)

/-- The early-return response built when a `sql_query_service` tool call
succeeds inside the tool-call loop (citations empty, metadata carries the
fresh conversation id). -/
def sqlEarlyResponse (s0 : Source) (ncid : String) : Response :=
  ⟨[⟨"assistant", s0.content, some [], some ncid⟩]⟩

/-- Splice sources accumulated by one adapter in front of whatever the rest
of the tool-call loop produced, unless the loop ended early or raised. -/
def prependSources (rs : List Source) :
    Except PyExc (Sum Response (List Source)) → Except PyExc (Sum Response (List Source))
  | .ok (.inr acc) => .ok (.inr (rs ++ acc))
  | other => other

/-- The `for tc in tool_calls` loop of the general path. Produces either an
early SQL response (`.inl`), the accumulated `sources_parts` (`.inr`), or a
propagating exception from a raising `json.loads` of tool arguments; the
second component records every adapter invocation in order. Per-adapter
exceptions (and the `sql_results[0]` `IndexError` on an empty SQL result)
are caught inside the loop and contribute nothing. -/
def runToolCalls (env : Env) (ncid dq : String) :
    List ToolCall → Except PyExc (Sum Response (List Source)) × List AdapterInv
  | [] => (.ok (.inr []), [])
  | tc :: rest =>
    match tc.args with
    | .error e => (.error e, [])
    | .ok qo =>
      let q := qo.getD dq
      if tc.name = sqlToolName then
        match env.sqlService q with
        | .ok (s0 :: _) => (.ok (.inl (sqlEarlyResponse s0 ncid)), [.sql q])
        | _ =>
          let p := runToolCalls env ncid dq rest
          (p.1, .sql q :: p.2)
      else if tc.name = ragToolName then
        match env.ragService q with
        | .ok rs =>
          let p := runToolCalls env ncid dq rest
          (prependSources rs p.1, .rag q :: p.2)
        | .error _ =>
          let p := runToolCalls env ncid dq rest
          (p.1, .rag q :: p.2)
      else if tc.name = logToolName then
        match env.logService q with
        | .ok rs =>
          let p := runToolCalls env ncid dq rest
          (prependSources rs p.1, .logA q :: p.2)
        | .error _ =>
          let p := runToolCalls env ncid dq rest
          (p.1, .logA q :: p.2)
      else
        runToolCalls env ncid dq rest

/-- The composition tail of the general path (`decide_tool.py` lines
279-331): join and truncate the sources, fill the system prompt, run the
final model call, append the reference markers and build the citations. -/
def composeFinal (env : Env) (query : String) (parts : List Source) :
    Except PyExc Response :=
  let sources := truncateText (joinSources parts) 20000
  match env.finalLLM (env.mkPrompt query sources) with
  | .error e => .error e
  | .ok base =>
    let referencesSuffix :=
      if parts.isEmpty then "" else "\n\nReferences: " ++ docRefs parts.length
    let citations := parts.map fun s => (⟨s.title, s.content⟩ : Citation)
    .ok ⟨[⟨"assistant", base ++ referencesSuffix, some citations, none⟩]⟩

/-- `DecideTool.get_chat_completion`: result (or uncaught, re-raised
exception) together with the ordered list of adapter invocations the
request performed. -/
def decideGetChatCompletion (env : Env) (history : List ChatMessage)
    (conversationId : String) : Except PyExc Response × List AdapterInv :=
  match history.getLast? with
  | none => (.error .indexError, [])
  | some last =>
    if pyStartsWith last.content ";;SQL;;" then
      match env.sqlService last.content with
      | .error e => (.error e, [.sql last.content])
      | .ok [] => (.error .indexError, [.sql last.content])
      | .ok (s0 :: _) =>
        (.ok ⟨[⟨"assistant", s0.content, some [], some conversationId⟩]⟩,
         [.sql last.content])
    else if pyStartsWith last.content ";;EXECUTE;;" then
      if h : 5 ≤ history.length then
        let fifth := history.get ⟨history.length - 5, by omega⟩
        let execQ := last.content ++ "|||" ++ fifth.content
        match env.sqlService execQ with
        | .error e => (.error e, [.sql execQ])
        | .ok [] => (.error .indexError, [.sql execQ])
        | .ok (s0 :: _) =>
          let citations : List Citation := [⟨s0.title, s0.content⟩]
          let sources := pyJoin "\n\n" (citations.map fun c => c.title ++ ":\n" ++ c.content)
          match env.executeLLM (env.mkPrompt fifth.content sources) with
          | .error e => (.error e, [.sql execQ])
          | .ok base =>
            (.ok ⟨[⟨"assistant", base ++ "\nReferences: [doc1]", some citations, none⟩]⟩,
             [.sql execQ])
      else (.error .indexError, [])
    else
      match env.toolSelect with
      | .error e => (.error e, [])
      | .ok toolCalls =>
        let p := runToolCalls env env.newCid last.content toolCalls
        match p.1 with
        | .error e => (.error e, p.2)
        | .ok (.inl resp) => (.ok resp, p.2)
        | .ok (.inr parts) =>
          match composeFinal env last.content parts with
          | .error e => (.error e, p.2)
          | .ok resp => (.ok resp, p.2)

/-- Python `str(e)` of the exceptions the boundary handler inspects
(FastAPI renders `HTTPException` as `"status: detail"`). -/
def strOfExc : PyExc → String
  | .rateLimitError m => m
  | .indexError => "list index out of range"
  | .attributeError m => m
  | .httpException status detail => Nat.repr status ++ ": " ++ detail
  | .runtimeError m => m
  | .other m => m

/-- Attribute access `chat_request.conversation_id` in `main.py` line 86:
the pydantic `ChatRequest` declares only `messages`, so reading the
undeclared attribute raises `AttributeError`. -/
def getattrConversationId (_ : ChatRequest) : Except PyExc String :=
  .error (.attributeError "ChatRequest object has no attribute conversation_id")

/-- The friendly rate-limit response of the boundary handler. -/
def rateLimitResponse : Response :=
  ⟨[⟨"assistant",
     "The AI service is currently experiencing high demand. Please wait a moment and try again.",
     none, none⟩]⟩

/-- `main.chat_completion`: the `/api/chat/completion` handler. Every
exception of the `try` block (including the `HTTPException` it raises
itself on empty messages) is caught and converted into an assistant-message
response whose `message` carries neither `context` nor `metadata`. -/
def chatCompletionHandler (env : Env) (req : ChatRequest) : Response :=
  let body : Except PyExc Response :=
    if req.messages.isEmpty then .error (.httpException 400 "Messages cannot be empty")
    else
      match getattrConversationId req with
      | .error e => .error e
      | .ok cid => (decideGetChatCompletion env req.messages cid).1
  match body with
  | .ok resp => resp
  | .error e =>
    let s := pyLower (strOfExc e)
    if pyContains s "rate limit" || pyContains s "capacity" || pyContains s "quota" then
      rateLimitResponse
    else
      ⟨[⟨"assistant", "An error occurred: " ++ strOfExc e, none, none⟩]⟩

/-! ### Derived views of the tool-call loop, and concrete environments -/

/-- The effective query of one tool call:
`fargs.get("query", history[-1].content)` (the parse error case is
irrelevant wherever this is used under a parsed-arguments hypothesis). -/
def queryOf (dq : String) (tc : ToolCall) : String :=
  match tc.args with
  | .ok qo => qo.getD dq
  | .error _ => dq

/-- Evidence one rag/log tool call contributes: its service's result, or
nothing when the service raises (or for other tool names). -/
def evidOf (env : Env) (dq : String) (tc : ToolCall) : List Source :=
  if tc.name = ragToolName then
    match env.ragService (queryOf dq tc) with
    | .ok rs => rs
    | .error _ => []
  else if tc.name = logToolName then
    match env.logService (queryOf dq tc) with
    | .ok rs => rs
    | .error _ => []
  else []

/-- The invocation record of one tool call with a recognized tool name. -/
def invOf (dq : String) (tc : ToolCall) : AdapterInv :=
  if tc.name = sqlToolName then .sql (queryOf dq tc)
  else if tc.name = ragToolName then .rag (queryOf dq tc)
  else .logA (queryOf dq tc)

/-- The aggregated evidence of a tool-call list, in the order the model
listed the calls. -/
def aggEvidence (env : Env) (dq : String) (tcs : List ToolCall) : List Source :=
  (tcs.map (evidOf env dq)).flatten

/-- The adapter named by a tool call raises on the call's query. -/
def adapterFails (env : Env) (dq : String) (tc : ToolCall) : Prop :=
  (tc.name = sqlToolName ∧ ∃ e, env.sqlService (queryOf dq tc) = .error e) ∨
  (tc.name = ragToolName ∧ ∃ e, env.ragService (queryOf dq tc) = .error e) ∨
  (tc.name = logToolName ∧ ∃ e, env.logService (queryOf dq tc) = .error e)

/-- A healthy concrete environment, used to instantiate theorems with
hypotheses at concrete inputs. -/
def stubEnv : Env where
  sqlService := fun _ => .ok [⟨"SQL Query", "sql rows"⟩]
  ragService := fun _ => .ok [⟨"Inventories", "inventory row"⟩]
  logService := fun _ => .ok [⟨"AppServiceHTTPLogs", "log row"⟩]
  toolSelect := .ok []
  finalLLM := fun _ => .ok "answer"
  executeLLM := fun _ => .ok "answer"
  mkPrompt := fun q s => q ++ "\n" ++ s
  newCid := "cid-1"

/-- Environment whose tool-selection call raises. -/
def failSelectEnv : Env :=
  { stubEnv with toolSelect := .error (.other "selection model unavailable") }

/-- Environment whose selection lists the log-analytics tool before the
document-search tool. -/
def orderEnv : Env :=
  { stubEnv with
    toolSelect := .ok [⟨logToolName, .ok (some "recent errors")⟩,
                       ⟨ragToolName, .ok (some "vm owner")⟩] }

/-- Environment in which all three adapters raise and the selection picked
all three tools. -/
def allFailEnv : Env :=
  { stubEnv with
    sqlService := fun _ => .error (.runtimeError "sql down")
    ragService := fun _ => .error (.runtimeError "search down")
    logService := fun _ => .error (.runtimeError "logs down")
    toolSelect := .ok [⟨sqlToolName, .ok none⟩,
                       ⟨ragToolName, .ok (some "q1")⟩,
                       ⟨logToolName, .ok (some "q2")⟩] }

/-- A one-message history on the general path. -/
def hist1 : List ChatMessage := [⟨"user", "which vm hosts the billing service"⟩]

/-- A four-message history whose last message carries the `;;EXECUTE;;`
control prefix. -/
def hist4 : List ChatMessage :=
  [⟨"user", "list columns"⟩, ⟨"assistant", ";;COLUMNS;;data"⟩,
   ⟨"user", "pick name"⟩, ⟨"user", ";;EXECUTE;;name"⟩]

/-! ### Helper lemmas -/

/-- Appending the empty string is the identity. -/
theorem str_append_empty (s : String) : s ++ "" = s := by
  cases s with
  | mk data => exact congrArg String.mk (List.append_nil data)

/-- When no segment's identifier extraction raises, the gate's loop returns
exactly the conjunction of the per-segment tests. -/
theorem checkSegs_of_ok (segs : List String)
    (h : ∀ seg ∈ segs, identOfSeg seg ≠ none) :
    checkSegs segs = some (segs.all segOk) := by
  induction segs with
  | nil => rfl
  | cons seg rest ih =>
    have hhead := h seg (List.mem_cons_self seg rest)
    have ihr := ih fun s hs => h s (List.mem_cons_of_mem _ hs)
    cases hid : identOfSeg seg with
    | none => exact absurd hid hhead
    | some ident =>
      have hcond : ((ident != "") && !(allowedTables.contains ident))
          = !((ident == "") || allowedTables.contains ident) := by
        cases h1 : (ident == "") <;> cases h2 : allowedTables.contains ident <;>
          simp [h1, h2, bne]
      have hso : segOk seg = ((ident == "") || allowedTables.contains ident) := by
        simp only [segOk, hid]
      simp only [checkSegs, hid, hcond, List.all_cons, hso]
      cases hb : ((ident == "") || allowedTables.contains ident) <;> simp [ihr]

/-! ### Claim C3: table allow-listing in the safety gate -/

/-- Claim C3, counterexample. The claim says every identifier immediately
following a `from`/`join` token that is not allow-listed makes
`_is_safe_sql` return false. But the gate only splits on the space-delimited
separator `" from "`, so a newline-separated `FROM` clause (the usual shape
of model-generated SQL) escapes the table check entirely: here the
token after `from` is `dbo.secret_table`, which is not allow-listed, yet
the gate returns true. -/
theorem c3_counterexample :
    specBadTableRef "select *\nfrom dbo.secret_table" = true ∧
    is_safe_sql "select *\nfrom dbo.secret_table" = some true :=
  ⟨rfl, rfl⟩

/-- Claim C3, amended: restricted to the space-delimited separators
`" from "` / `" join "` that the gate actually splits on, and to inputs
where each post-separator segment has a first word (otherwise the gate
raises `IndexError`): the gate returns false when some extracted identifier
is non-empty and not allow-listed, and returns true when every extracted
identifier is empty-or-allow-listed and no forbidden keyword occurs as a
substring. -/
theorem c3_amended (sql : String)
    (hseg : ∀ seg ∈ tableSegs (pyLower sql), identOfSeg seg ≠ none) :
    ((∃ seg ∈ tableSegs (pyLower sql), segOk seg = false) →
      is_safe_sql sql = some false) ∧
    ((∀ seg ∈ tableSegs (pyLower sql), segOk seg = true) →
      forbiddenKeywords.all (fun f => !(pyContains (pyLower sql) f)) = true →
      is_safe_sql sql = some true) := by
  have hcs := checkSegs_of_ok _ hseg
  constructor
  · rintro ⟨seg, hmem, hbad⟩
    by_cases hforb : forbiddenKeywords.any (fun f => pyContains (pyLower sql) f) = true
    · simp [is_safe_sql, hforb]
    · have hall : (tableSegs (pyLower sql)).all segOk = false := by
        rcases Bool.eq_false_or_eq_true ((tableSegs (pyLower sql)).all segOk) with h | h
        · exact absurd ((List.all_eq_true.mp h) seg hmem) (by simp [hbad])
        · exact h
      simp [is_safe_sql, hforb, hcs, hall]
  · intro hall hforb
    have hany : forbiddenKeywords.any (fun f => pyContains (pyLower sql) f) = false := by
      rcases Bool.eq_false_or_eq_true
          (forbiddenKeywords.any fun f => pyContains (pyLower sql) f) with h | h
      · obtain ⟨f, hf, hpf⟩ := List.any_eq_true.mp h
        have := List.all_eq_true.mp hforb f hf
        simp [hpf] at this
      · exact h
    have : (tableSegs (pyLower sql)).all segOk = true := List.all_eq_true.mpr hall
    simp [is_safe_sql, hany, hcs, this]

/-- Claim C3, witness for the amended theorem: a plain single-space `FROM`
clause naming a table outside the allow-list is rejected. -/
theorem c3_witness : is_safe_sql "select name from evil_tbl" = some false :=
  (c3_amended "select name from evil_tbl" (by decide)).1 (by decide)

/-! ### Claim C4: forbidden-keyword rejection -/

/-- Claim C4, counterexample. The claim lists `create` among the mutating
keywords that force rejection, but the gate's `forbidden` list is only
`update, delete, insert, merge, drop, alter, truncate`: a `CREATE TABLE`
statement passes the gate. -/
theorem c4_counterexample :
    pyContains (pyLower "create table audit_copy (id int)") "create" = true ∧
    is_safe_sql "create table audit_copy (id int)" = some true :=
  ⟨rfl, rfl⟩

/-- Claim C4, amended: for every SQL string whose lowercase text contains
one of the seven keywords `update`, `delete`, `insert`, `merge`, `drop`,
`alter`, `truncate` as a substring (`create` is not checked), the gate
returns false. -/
theorem c4_amended (sql f : String) (hf : f ∈ forbiddenKeywords)
    (hc : pyContains (pyLower sql) f = true) :
    is_safe_sql sql = some false := by
  have : forbiddenKeywords.any (fun g => pyContains (pyLower sql) g) = true :=
    List.any_eq_true.mpr ⟨f, hf, hc⟩
  simp [is_safe_sql, this]

/-- Claim C4, witness for the amended theorem: a `DROP` statement is
rejected. -/
theorem c4_witness :
    is_safe_sql "DROP TABLE virtual_machines" = some false :=
  c4_amended "DROP TABLE virtual_machines" "drop" (by decide) (by decide)

/-! ### Claim C7: defaults of the classification-strategy selector -/

/-- Claim C7, counterexample. The claim says a field missing from the
parsed JSON defaults to true. On the parsed object with only
`inventories: true`, the `incidents` key is absent and the selector returns
`(true, false)`: the missing field defaults to false, so the incidents
index is not searched. -/
theorem c7_counterexample :
    dictGet [("inventories", JsonVal.jbool true)] "incidents" = none ∧
    selectIndexes (.ok (.jobj [("inventories", .jbool true)])) = (true, false) :=
  ⟨rfl, rfl⟩

/-- Claim C7, amended: a field missing from the parsed JSON object defaults
to false (that index is skipped); both fields default to true only when the
selection call raises or its output is unparsable or not an object. -/
theorem c7_amended (fields : List (String × JsonVal)) :
    (dictGet fields "inventories" = none →
      (selectIndexes (.ok (.jobj fields))).1 = false) ∧
    (dictGet fields "incidents" = none →
      (selectIndexes (.ok (.jobj fields))).2 = false) := by
  constructor <;> intro h <;> simp [selectIndexes, h, pyTruthy]

/-- Claim C7, witness for the amended theorem: on an empty parsed object
both flags come out false. -/
theorem c7_witness :
    (selectIndexes (.ok (.jobj []))).1 = false ∧
    (selectIndexes (.ok (.jobj []))).2 = false :=
  ⟨(c7_amended []).1 rfl, (c7_amended []).2 rfl⟩

/-! ### Claim C9: retry policy -/

/-- Claim C9: with the default bound of 3 attempts, rate-limit failures are
retried with doubling delays (1.5s then 3s, recorded in tenths as 15 and
30), the rate-limit error is re-raised only after the third attempt, and
any non-rate-limit failure propagates immediately without a retry or a
sleep. The seven cases cover every execution path of the loop. -/
theorem c9_retry_policy {α : Type} (f : Nat → CallOutcome α) (a : α)
    (e : PyExc) (m0 m1 m2 : String) :
    (f 0 = .ok a → retryOpenaiCall f 3 = (.ok a, [])) ∧
    (f 0 = .fail e → retryOpenaiCall f 3 = (.error e, [])) ∧
    (f 0 = .rateLimit m0 → f 1 = .ok a →
      retryOpenaiCall f 3 = (.ok a, [15])) ∧
    (f 0 = .rateLimit m0 → f 1 = .fail e →
      retryOpenaiCall f 3 = (.error e, [15])) ∧
    (f 0 = .rateLimit m0 → f 1 = .rateLimit m1 → f 2 = .ok a →
      retryOpenaiCall f 3 = (.ok a, [15, 30])) ∧
    (f 0 = .rateLimit m0 → f 1 = .rateLimit m1 → f 2 = .fail e →
      retryOpenaiCall f 3 = (.error e, [15, 30])) ∧
    (f 0 = .rateLimit m0 → f 1 = .rateLimit m1 → f 2 = .rateLimit m2 →
      retryOpenaiCall f 3 = (.error (.rateLimitError m2), [15, 30])) := by
  have s3 : retryFrom f 0 3 =
      (match f 0 with
       | .ok x => ((Except.ok x : Except PyExc α), ([] : List Nat))
       | .fail err => (.error err, [])
       | .rateLimit _ => ((retryFrom f 1 2).1, 15 :: (retryFrom f 1 2).2)) := by
    rcases h : f 0 with x | m | err <;> (rw [retryFrom, h]; try rfl)
  have s2 : retryFrom f 1 2 =
      (match f 1 with
       | .ok x => ((Except.ok x : Except PyExc α), ([] : List Nat))
       | .fail err => (.error err, [])
       | .rateLimit _ => ((retryFrom f 2 1).1, 30 :: (retryFrom f 2 1).2)) := by
    rcases h : f 1 with x | m | err <;> (rw [retryFrom, h]; try rfl)
  have s1 : retryFrom f 2 1 =
      (match f 2 with
       | .ok x => ((Except.ok x : Except PyExc α), ([] : List Nat))
       | .fail err => (.error err, [])
       | .rateLimit m => (.error (.rateLimitError m), [])) := by
    rcases h : f 2 with x | m | err <;> (rw [retryFrom, h]; try rfl)
  refine ⟨?_, ?_, ?_, ?_, ?_, ?_, ?_⟩
  · intro h0; simp only [retryOpenaiCall, s3, h0]
  · intro h0; simp only [retryOpenaiCall, s3, h0]
  · intro h0 h1; simp only [retryOpenaiCall, s3, h0, s2, h1]
  · intro h0 h1; simp only [retryOpenaiCall, s3, h0, s2, h1]
  · intro h0 h1 h2; simp only [retryOpenaiCall, s3, h0, s2, h1, s1, h2]
  · intro h0 h1 h2; simp only [retryOpenaiCall, s3, h0, s2, h1, s1, h2]
  · intro h0 h1 h2; simp only [retryOpenaiCall, s3, h0, s2, h1, s1, h2]

/-- Claim C9, witness: an always-throttled call exhausts the three attempts
with delays 1.5s and 3s and re-raises the rate-limit error. -/
theorem c9_witness :
    retryOpenaiCall (fun _ => (CallOutcome.rateLimit "throttled" : CallOutcome Nat)) 3 =
      (.error (.rateLimitError "throttled"), [15, 30]) :=
  (c9_retry_policy (fun _ => CallOutcome.rateLimit "throttled") 0 (.other "x")
    "throttled" "throttled" "throttled").2.2.2.2.2.2 rfl rfl rfl

/-- On a list of parsed rag/log tool calls, the loop accumulates each
call's evidence in the order of the list and records each invocation. -/
theorem runToolCalls_ragLog (env : Env) (ncid dq : String) (tcs : List ToolCall)
    (hargs : ∀ tc ∈ tcs, ∃ qo, tc.args = Except.ok qo)
    (hnames : ∀ tc ∈ tcs, tc.name = ragToolName ∨ tc.name = logToolName) :
    runToolCalls env ncid dq tcs =
      (.ok (.inr (aggEvidence env dq tcs)), tcs.map (invOf dq)) := by
  induction tcs with
  | nil => rfl
  | cons tc rest ih =>
    obtain ⟨qo, hqo⟩ := hargs tc (List.mem_cons_self tc rest)
    have ihr := ih (fun t ht => hargs t (List.mem_cons_of_mem _ ht))
      (fun t ht => hnames t (List.mem_cons_of_mem _ ht))
    have hq : queryOf dq tc = qo.getD dq := by simp [queryOf, hqo]
    rcases hnames tc (List.mem_cons_self tc rest) with hn | hn
    · have hns : ¬(tc.name = sqlToolName) := by
        rw [hn]; simp [ragToolName, sqlToolName]
      have hinv : invOf dq tc = .rag (qo.getD dq) := by
        simp [invOf, hn, hns, hq, ragToolName, sqlToolName]
      cases hr : env.ragService (qo.getD dq) with
      | ok rs =>
        have hev : evidOf env dq tc = rs := by simp [evidOf, hn, hq, hr]
        simp [runToolCalls, hqo, hns, hn, ihr, prependSources, aggEvidence,
          hev, hinv, hr, ragToolName, sqlToolName]
      | error e =>
        have hev : evidOf env dq tc = [] := by simp [evidOf, hn, hq, hr]
        simp [runToolCalls, hqo, hns, hn, ihr, aggEvidence, hev, hinv, hr,
          ragToolName, sqlToolName]
    · have hns : ¬(tc.name = sqlToolName) := by
        rw [hn]; simp [logToolName, sqlToolName]
      have hnr : ¬(tc.name = ragToolName) := by
        rw [hn]; simp [logToolName, ragToolName]
      have hinv : invOf dq tc = .logA (qo.getD dq) := by
        simp [invOf, hn, hns, hnr, hq, logToolName, sqlToolName, ragToolName]
      cases hr : env.logService (qo.getD dq) with
      | ok rs =>
        have hev : evidOf env dq tc = rs := by
          simp [evidOf, hn, hnr, hq, hr, logToolName, ragToolName]
        simp [runToolCalls, hqo, hns, hnr, hn, ihr, prependSources, aggEvidence,
          hev, hinv, hr, logToolName, sqlToolName, ragToolName]
      | error e =>
        have hev : evidOf env dq tc = [] := by
          simp [evidOf, hn, hnr, hq, hr, logToolName, ragToolName]
        simp [runToolCalls, hqo, hns, hnr, hn, ihr, aggEvidence, hev, hinv, hr,
          logToolName, sqlToolName, ragToolName]

/-- When every selected adapter raises on its query, the loop still visits
every tool call, accumulates no evidence, and does not end early. -/
theorem runToolCalls_allFail (env : Env) (ncid dq : String) (tcs : List ToolCall)
    (hargs : ∀ tc ∈ tcs, ∃ qo, tc.args = Except.ok qo)
    (hfail : ∀ tc ∈ tcs, adapterFails env dq tc) :
    runToolCalls env ncid dq tcs = (.ok (.inr []), tcs.map (invOf dq)) := by
  induction tcs with
  | nil => rfl
  | cons tc rest ih =>
    obtain ⟨qo, hqo⟩ := hargs tc (List.mem_cons_self tc rest)
    have ihr := ih (fun t ht => hargs t (List.mem_cons_of_mem _ ht))
      (fun t ht => hfail t (List.mem_cons_of_mem _ ht))
    have hq : queryOf dq tc = qo.getD dq := by simp [queryOf, hqo]
    rcases hfail tc (List.mem_cons_self tc rest) with ⟨hn, e, he⟩ | ⟨hn, e, he⟩ | ⟨hn, e, he⟩
    · rw [hq] at he
      have hinv : invOf dq tc = .sql (qo.getD dq) := by simp [invOf, hn, hq]
      simp [runToolCalls, hqo, hn, he, ihr, hinv]
    · rw [hq] at he
      have hns : ¬(tc.name = sqlToolName) := by
        rw [hn]; simp [ragToolName, sqlToolName]
      have hinv : invOf dq tc = .rag (qo.getD dq) := by
        simp [invOf, hn, hns, hq, ragToolName, sqlToolName]
      simp [runToolCalls, hqo, hns, hn, he, ihr, hinv, ragToolName, sqlToolName]
    · rw [hq] at he
      have hns : ¬(tc.name = sqlToolName) := by
        rw [hn]; simp [logToolName, sqlToolName]
      have hnr : ¬(tc.name = ragToolName) := by
        rw [hn]; simp [logToolName, ragToolName]
      have hinv : invOf dq tc = .logA (qo.getD dq) := by
        simp [invOf, hn, hns, hnr, hq, logToolName, sqlToolName, ragToolName]
      simp [runToolCalls, hqo, hns, hnr, hn, he, ihr, hinv,
        logToolName, sqlToolName, ragToolName]

/-! ### Claim C5: merge order of the aggregated evidence -/

/-- Claim C5, counterexample. The claim requires the aggregated evidence to
follow the fixed priority order document search first, then relational,
then log analytics, regardless of the order of the model's tool calls. In
an environment whose selection lists the log-analytics tool before the
document-search tool, the citations come out log evidence first, refuting
the fixed order (the two citations are distinct, so the order is
observable). -/
theorem c5_counterexample :
    decideGetChatCompletion orderEnv hist1 "" =
      (.ok ⟨[⟨"assistant", "answer\n\nReferences: [doc1][doc2]",
          some [⟨"AppServiceHTTPLogs", "log row"⟩, ⟨"Inventories", "inventory row"⟩],
          none⟩]⟩,
       [.logA "recent errors", .rag "vm owner"]) ∧
    (⟨"AppServiceHTTPLogs", "log row"⟩ : Citation) ≠ ⟨"Inventories", "inventory row"⟩ := by
  exact ⟨rfl, by decide⟩

/-- Claim C5, amended: on the general path the aggregated evidence list is
the concatenation of the evidence of the successful document-search and
log-analytics tool calls in the order the model's tool-call list gave them
(not in a fixed priority order); a successful relational tool call instead
short-circuits the request with its own citation-free response, so it never
contributes evidence. -/
theorem c5_amended (env : Env) (history : List ChatMessage) (cid : String)
    (last : ChatMessage) (tcs : List ToolCall) (base : String)
    (hl : history.getLast? = some last)
    (hp1 : pyStartsWith last.content ";;SQL;;" = false)
    (hp2 : pyStartsWith last.content ";;EXECUTE;;" = false)
    (hts : env.toolSelect = .ok tcs)
    (hargs : ∀ tc ∈ tcs, ∃ qo, tc.args = Except.ok qo)
    (hnames : ∀ tc ∈ tcs, tc.name = ragToolName ∨ tc.name = logToolName)
    (hfin : env.finalLLM (env.mkPrompt last.content
        (truncateText (joinSources (aggEvidence env last.content tcs)) 20000)) = .ok base) :
    decideGetChatCompletion env history cid =
      (.ok ⟨[⟨"assistant",
          base ++ (if (aggEvidence env last.content tcs).isEmpty then ""
                   else "\n\nReferences: " ++ docRefs (aggEvidence env last.content tcs).length),
          some ((aggEvidence env last.content tcs).map fun s => (⟨s.title, s.content⟩ : Citation)),
          none⟩]⟩,
       tcs.map (invOf last.content)) := by
  have hrun := runToolCalls_ragLog env env.newCid last.content tcs hargs hnames
  simp only [decideGetChatCompletion, hl, hp1, hp2, hts, Bool.false_eq_true,
    if_false, hrun, composeFinal, hfin]

/-- Claim C5, witness for the amended theorem at the concrete reordered
selection. -/
theorem c5_witness :
    decideGetChatCompletion orderEnv hist1 "" =
      (.ok ⟨[⟨"assistant", "answer\n\nReferences: [doc1][doc2]",
          some [⟨"AppServiceHTTPLogs", "log row"⟩, ⟨"Inventories", "inventory row"⟩],
          none⟩]⟩,
       [.logA "recent errors", .rag "vm owner"]) :=
  c5_amended orderEnv hist1 "" ⟨"user", "which vm hosts the billing service"⟩
    [⟨logToolName, .ok (some "recent errors")⟩, ⟨ragToolName, .ok (some "vm owner")⟩]
    "answer" rfl rfl rfl rfl
    (by intro tc htc; fin_cases htc <;> exact ⟨_, rfl⟩)
    (by
      intro tc htc
      fin_cases htc
      · exact Or.inr rfl
      · exact Or.inl rfl)
    rfl

/-! ### Claim C8: per-adapter failure tolerance on the general path -/

/-- Claim C8: on the general path, when every selected adapter raises on
its query, every adapter is still invoked (no sibling call is aborted), the
aggregation yields an empty evidence list, and a final answer is still
composed and returned with empty citations instead of the request
failing. -/
theorem c8_adapter_failures (env : Env) (history : List ChatMessage) (cid : String)
    (last : ChatMessage) (tcs : List ToolCall) (base : String)
    (hl : history.getLast? = some last)
    (hp1 : pyStartsWith last.content ";;SQL;;" = false)
    (hp2 : pyStartsWith last.content ";;EXECUTE;;" = false)
    (hts : env.toolSelect = .ok tcs)
    (hargs : ∀ tc ∈ tcs, ∃ qo, tc.args = Except.ok qo)
    (hfail : ∀ tc ∈ tcs, adapterFails env last.content tc)
    (hfin : env.finalLLM (env.mkPrompt last.content "") = .ok base) :
    decideGetChatCompletion env history cid =
      (.ok ⟨[⟨"assistant", base, some [], none⟩]⟩, tcs.map (invOf last.content)) := by
  have hrun := runToolCalls_allFail env env.newCid last.content tcs hargs hfail
  have htr : truncateText (joinSources []) 20000 = "" := rfl
  simp [decideGetChatCompletion, hl, hp1, hp2, hts, hrun, composeFinal, htr,
    hfin, str_append_empty]

/-- Claim C8, witness: three failing adapters, all three invoked, empty
citations, answer still returned. -/
theorem c8_witness :
    decideGetChatCompletion allFailEnv hist1 "" =
      (.ok ⟨[⟨"assistant", "answer", some [], none⟩]⟩,
       [.sql "which vm hosts the billing service", .rag "q1", .logA "q2"]) :=
  c8_adapter_failures allFailEnv hist1 "" ⟨"user", "which vm hosts the billing service"⟩
    [⟨sqlToolName, .ok none⟩, ⟨ragToolName, .ok (some "q1")⟩, ⟨logToolName, .ok (some "q2")⟩]
    "answer" rfl rfl rfl rfl
    (by intro tc htc; fin_cases htc <;> exact ⟨_, rfl⟩)
    (by
      intro tc htc
      fin_cases htc
      · exact Or.inl ⟨rfl, ⟨.runtimeError "sql down", rfl⟩⟩
      · exact Or.inr (Or.inl ⟨rfl, ⟨.runtimeError "search down", rfl⟩⟩)
      · exact Or.inr (Or.inr ⟨rfl, ⟨.runtimeError "logs down", rfl⟩⟩))
    rfl

/-! ### Claim C1: fail-open tool selection -/

/-- Claim C1, counterexample. The claim says that when the tool-selection
call raises on the general path, all three adapters are still invoked. In
an environment whose tool-selection call raises, the exception propagates
out of the orchestration and the invocation trace is empty: no adapter runs
at all. -/
theorem c1_counterexample :
    decideGetChatCompletion failSelectEnv hist1 "" =
      (.error (.other "selection model unavailable"), []) := rfl

/-- Claim C1, amended: the fail-open degradation holds for the
index-selection step inside the document-search adapter (a raising or
unparsable selection yields `(True, True)`, so both indexes are searched),
but on the general path a tool-selection call that raises propagates the
exception out of `get_chat_completion` and no adapter is invoked. -/
theorem c1_amended (e : PyExc) (env : Env) (history : List ChatMessage)
    (cid : String) (last : ChatMessage) :
    selectIndexes (.error e) = (true, true) ∧
    (history.getLast? = some last →
     pyStartsWith last.content ";;SQL;;" = false →
     pyStartsWith last.content ";;EXECUTE;;" = false →
     env.toolSelect = .error e →
     decideGetChatCompletion env history cid = (.error e, [])) := by
  refine ⟨rfl, ?_⟩
  intro hl hp1 hp2 hts
  simp [decideGetChatCompletion, hl, hp1, hp2, hts]

/-- Claim C1, witness for the amended theorem at a concrete raising
selection. -/
theorem c1_witness :
    selectIndexes (.error (.other "selection model unavailable")) = (true, true) ∧
    decideGetChatCompletion failSelectEnv hist1 "" =
      (.error (.other "selection model unavailable"), []) :=
  ⟨(c1_amended (.other "selection model unavailable") failSelectEnv hist1 ""
      ⟨"user", "which vm hosts the billing service"⟩).1,
   (c1_amended (.other "selection model unavailable") failSelectEnv hist1 ""
      ⟨"user", "which vm hosts the billing service"⟩).2 rfl rfl rfl rfl⟩

/-! ### Claim C10: the `;;EXECUTE;;` branch and short histories -/

/-- Claim C10: when the last message carries the `;;EXECUTE;;` prefix and
the history has fewer than 5 messages, the `history[-5]` access raises
`IndexError` out of `get_chat_completion` (before any adapter is invoked),
so the branch returns normally only when the history has at least 5
messages. -/
theorem c10_execute_short_history (env : Env) (history : List ChatMessage)
    (cid : String) (last : ChatMessage)
    (hl : history.getLast? = some last)
    (hp1 : pyStartsWith last.content ";;SQL;;" = false)
    (hex : pyStartsWith last.content ";;EXECUTE;;" = true)
    (hlen : history.length < 5) :
    decideGetChatCompletion env history cid = (.error .indexError, []) := by
  simp only [decideGetChatCompletion, hl, hp1, Bool.false_eq_true, if_false, hex, if_true]
  rw [dif_neg (by omega)]

/-- Claim C10, witness: a four-message `;;EXECUTE;;` history raises
`IndexError`. -/
theorem c10_witness :
    decideGetChatCompletion stubEnv hist4 "" = (.error .indexError, []) :=
  c10_execute_short_history stubEnv hist4 "" ⟨"user", ";;EXECUTE;;name"⟩
    rfl rfl rfl (by decide)

/-! ### Claim C6: citation numbering of the composed answer -/

/-- Claim C6: for an aggregated evidence list of length K, the composed
answer appends, when K is positive, a references suffix holding exactly the
K markers doc1..docK in order (1-based); when K is zero no suffix is
appended; and the citations list has length K with entry i equal to the
title/content of evidence item i. -/
theorem c6_citation_numbering (env : Env) (q : String) (parts : List Source)
    (base : String)
    (hfin : env.finalLLM (env.mkPrompt q (truncateText (joinSources parts) 20000)) =
      .ok base) :
    ∃ msg : RespMessage,
      composeFinal env q parts = .ok ⟨[msg]⟩ ∧
      msg.role = "assistant" ∧
      (0 < parts.length →
        msg.content = base ++ ("\n\nReferences: " ++
          pyJoin "" ((List.range parts.length).map fun i =>
            "[doc" ++ Nat.repr (i + 1) ++ "]"))) ∧
      (parts.length = 0 → msg.content = base) ∧
      ∃ cits : List Citation,
        msg.context = some cits ∧
        cits.length = parts.length ∧
        ∀ i : Nat, cits[i]? = (parts[i]?).map fun s => (⟨s.title, s.content⟩ : Citation) := by
  refine ⟨⟨"assistant",
    base ++ (if parts.isEmpty then "" else "\n\nReferences: " ++ docRefs parts.length),
    some (parts.map fun s => ⟨s.title, s.content⟩), none⟩, ?_, rfl, ?_, ?_, ?_⟩
  · simp [composeFinal, hfin]
  · intro hpos
    have hne : parts.isEmpty = false := by
      cases parts with
      | nil => simp at hpos
      | cons a l => rfl
    simp [hne, docRefs]
  · intro hz
    have : parts = [] := List.length_eq_zero.mp hz
    subst this
    simp [str_append_empty]
  · exact ⟨parts.map fun s => ⟨s.title, s.content⟩, rfl, by simp, fun i => by simp⟩

/-- Claim C6, witness at a two-element evidence list. -/
theorem c6_witness :
    ∃ msg : RespMessage,
      composeFinal stubEnv "q" [⟨"Inventories", "alpha"⟩, ⟨"Incident", "beta"⟩] =
        .ok ⟨[msg]⟩ ∧
      msg.role = "assistant" ∧
      (0 < ([⟨"Inventories", "alpha"⟩, ⟨"Incident", "beta"⟩] : List Source).length →
        msg.content = "answer" ++ ("\n\nReferences: " ++
          pyJoin "" ((List.range
              ([⟨"Inventories", "alpha"⟩, ⟨"Incident", "beta"⟩] : List Source).length).map
            fun i => "[doc" ++ Nat.repr (i + 1) ++ "]"))) ∧
      (([⟨"Inventories", "alpha"⟩, ⟨"Incident", "beta"⟩] : List Source).length = 0 →
        msg.content = "answer") ∧
      ∃ cits : List Citation,
        msg.context = some cits ∧
        cits.length = ([⟨"Inventories", "alpha"⟩, ⟨"Incident", "beta"⟩] : List Source).length ∧
        ∀ i : Nat, cits[i]? =
          (([⟨"Inventories", "alpha"⟩, ⟨"Incident", "beta"⟩] : List Source)[i]?).map
            fun s => (⟨s.title, s.content⟩ : Citation) :=
  c6_citation_numbering stubEnv "q" [⟨"Inventories", "alpha"⟩, ⟨"Incident", "beta"⟩]
    "answer" rfl

/-! ### Claim C2: the request boundary -/

/-- Claim C2: the claim expects every non-empty request to produce the
documented response shape with `context.citations`. In the code the handler
reads `chat_request.conversation_id`, but the pydantic `ChatRequest` model
declares only `messages`, so the read raises `AttributeError` on every
request; the catch-all converts it into a generic error-text assistant
message without `context` or `metadata`, and this happens for every
environment (the RAG service is never reached). The code contradicts the
endpoint docstring (AI-generated responses with citations), so the claim is
right and the code is wrong. -/
theorem c2_conversation_id_bug (env : Env) (req : ChatRequest)
    (hne : req.messages ≠ []) :
    chatCompletionHandler env req =
      ⟨[⟨"assistant",
         "An error occurred: ChatRequest object has no attribute conversation_id",
         none, none⟩]⟩ := by
  have hni : req.messages.isEmpty = false := by
    cases h : req.messages with
    | nil => exact absurd h hne
    | cons a l => rfl
  have hc1 : pyContains (pyLower "ChatRequest object has no attribute conversation_id")
      "rate limit" = false := rfl
  have hc2 : pyContains (pyLower "ChatRequest object has no attribute conversation_id")
      "capacity" = false := rfl
  have hc3 : pyContains (pyLower "ChatRequest object has no attribute conversation_id")
      "quota" = false := rfl
  simp [chatCompletionHandler, hni, getattrConversationId, strOfExc, hc1, hc2, hc3]

/-- Claim C2, witness: a concrete one-message request yields the
attribute-error response. -/
theorem c2_witness :
    chatCompletionHandler stubEnv ⟨[⟨"user", "What team owns payment-gw-01?"⟩]⟩ =
      ⟨[⟨"assistant",
         "An error occurred: ChatRequest object has no attribute conversation_id",
         none, none⟩]⟩ :=
  c2_conversation_id_bug stubEnv ⟨[⟨"user", "What team owns payment-gw-01?"⟩]⟩
    (by decide)
